import Mathlib

/-!
Verification of the vesting computation and claim engine of src/lib/vesting.js.

The file contains two concatenated variants of the module.  Both variants
compute the vested amount with the same three-way branch (variant 1 at
lines 119-126, variant 2 at lines 532-539 and 693-700); variant 1 reads
the schedule as the 5-tuple (totalAmount, released, releasable, startTime,
endTime) while variant 2 reads the 4-tuple (totalAmount, releasedAmount,
startTime, duration) with endTime = startTime + duration.

All on-chain quantities are uint256 values converted to JavaScript BigInt,
hence non-negative; the reference instant now is floor(Date.now() / 1000),
also non-negative.  They are embedded as Nat.  In the one place the code
can produce a negative BigInt (releasable = vestedAmount - releasedAmount
in variant 2, lines 541 and 702) the embedding uses Int.  In the division
branch the guards force now - startTime and endTime - startTime to be
positive, so Nat truncated subtraction and Nat floor division agree with
BigInt subtraction and BigInt division truncating toward zero.
-/

/-- Vested amount, the shared three-way branch of both variants
(vesting.js lines 119-126, 532-539, 693-700): totalAmount if
now >= endTime, else 0 if now <= startTime, else
totalAmount * (now - startTime) / (endTime - startTime). -/
def vestedAmount (totalAmount startTime endTime now : Nat) : Nat :=
  if now ≥ endTime then totalAmount
  else if now ≤ startTime then 0
  else totalAmount * (now - startTime) / (endTime - startTime)

/-- Schedule tuple fetched by variant 1 (vesting.js lines 96-100):
(totalAmount, released, releasable, startTime, endTime), all uint256. -/
structure Schedule1 where
  totalAmount : Nat
  releasedAmount : Nat
  releasableAmount : Nat
  startTime : Nat
  endTime : Nat
deriving DecidableEq

/-- Schedule tuple fetched by variant 2 (vesting.js lines 510-513 and
672-675): (totalAmount, releasedAmount, startTime, duration). -/
structure Schedule2 where
  totalAmount : Nat
  releasedAmount : Nat
  startTime : Nat
  duration : Nat
deriving DecidableEq

/-- Releasable amount of variant 2 (vesting.js lines 541 and 702):
vestedAmount - releasedAmount as BigInt subtraction, which may be
negative.  Variant 2 derives endTime = startTime + duration (lines 530,
691). -/
def releasableAmount2 (s : Schedule2) (now : Nat) : Int :=
  (vestedAmount s.totalAmount s.startTime (s.startTime + s.duration) now : Int) -
    (s.releasedAmount : Int)

/-- The exact integer amounts assembled into the raw block of a successful
getVestingInfo result (vesting.js lines 207-212 and 598-603).  The
formatted display strings, progress percentage and time-remaining label
are presentation-layer output (locale formatting and IEEE-754 floats) and
are not part of this embedding. -/
structure RawAmounts where
  totalAmount : Nat
  releasedAmount : Nat
  releasableAmount : Int
  lockedAmount : Nat
deriving DecidableEq

/-- Raw amounts computed by variant 1 of getVestingInfo (lines 114-132):
releasable is taken from the contract-supplied schedule field unchanged
(line 129), locked is totalAmount - vestedAmount (line 132). -/
def vestingRaw1 (s : Schedule1) (now : Nat) : RawAmounts :=
  let vested := vestedAmount s.totalAmount s.startTime s.endTime now
  { totalAmount := s.totalAmount
    releasedAmount := s.releasedAmount
    releasableAmount := (s.releasableAmount : Int)
    lockedAmount := s.totalAmount - vested }

/-- Raw amounts computed by variant 2 of getVestingInfo (lines 526-544):
releasable is vestedAmount - releasedAmount (line 541), locked is
totalAmount - vestedAmount (line 544). -/
def vestingRaw2 (s : Schedule2) (now : Nat) : RawAmounts :=
  let vested := vestedAmount s.totalAmount s.startTime (s.startTime + s.duration) now
  { totalAmount := s.totalAmount
    releasedAmount := s.releasedAmount
    releasableAmount := releasableAmount2 s now
    lockedAmount := s.totalAmount - vested }

/-- Outcome of getVestingInfo after the schedule has been fetched:
either the schedule-not-found failure or a successful payload. -/
inductive QueryResult where
  | scheduleNotFound : QueryResult
  | ok : RawAmounts → QueryResult
deriving DecidableEq

/-- Post-fetch core of variant 1 of getVestingInfo (lines 102-214): a
schedule with totalAmount == 0 is rejected as not found (lines 103-112),
otherwise the raw amounts are computed and returned. -/
def getVestingInfoCore1 (s : Schedule1) (now : Nat) : QueryResult :=
  if s.totalAmount = 0 then QueryResult.scheduleNotFound
  else QueryResult.ok (vestingRaw1 s now)

/-- Post-fetch core of variant 2 of getVestingInfo (lines 515-605). -/
def getVestingInfoCore2 (s : Schedule2) (now : Nat) : QueryResult :=
  if s.totalAmount = 0 then QueryResult.scheduleNotFound
  else QueryResult.ok (vestingRaw2 s now)

/-- Outcome of claimVestedTokens after the schedule has been fetched:
failure before submission, or submission of the release transaction
carrying the raw releasable amount that will be reported as claimed. -/
inductive ClaimOutcome where
  | scheduleNotFound : ClaimOutcome
  | nothingToClaim : ClaimOutcome
  | submitRelease : Int → ClaimOutcome
deriving DecidableEq

/-- Post-fetch core of variant 1 of claimVestedTokens (lines 307-355):
totalAmount == 0 fails as not found (lines 314-322); releasable is the
contract-supplied field (line 325); releasable <= 0 fails as
nothing-to-claim (lines 327-336); only otherwise is the release
transaction submitted (line 354). -/
def claimVestedTokensCore1 (s : Schedule1) : ClaimOutcome :=
  if s.totalAmount = 0 then ClaimOutcome.scheduleNotFound
  else if (s.releasableAmount : Int) ≤ 0 then ClaimOutcome.nothingToClaim
  else ClaimOutcome.submitRelease (s.releasableAmount : Int)

/-- Post-fetch core of variant 2 of claimVestedTokens (lines 672-721):
totalAmount == 0 fails as not found (lines 677-685); releasable is
vestedAmount - releasedAmount (line 702); releasable <= 0 fails as
nothing-to-claim (lines 704-712); only otherwise is the release
transaction submitted (line 720). -/
def claimVestedTokensCore2 (s : Schedule2) (now : Nat) : ClaimOutcome :=
  if s.totalAmount = 0 then ClaimOutcome.scheduleNotFound
  else if releasableAmount2 s now ≤ 0 then ClaimOutcome.nothingToClaim
  else ClaimOutcome.submitRelease (releasableAmount2 s now)

/-! ## Claim C1: the three-way vested-amount formula -/

/-- C1 counterexample.  The claim states that for every schedule with
endTime >= startTime the vested amount is 0 whenever now <= startTime,
totalAmount whenever now >= endTime, and the proportional quotient in
between.  This fails at the zero-duration schedule
totalAmount = 5, startTime = endTime = 10 at now = 10: the code checks
now >= endTime first and returns totalAmount = 5, while the claimed
not-started case demands 0. -/
theorem vested_piecewise_counterexample :
    ¬ ∀ (total st en now : Nat), st ≤ en →
        ((now ≤ st → vestedAmount total st en now = 0) ∧
         (en ≤ now → vestedAmount total st en now = total) ∧
         (st < now → now < en →
           vestedAmount total st en now = total * (now - st) / (en - st))) := by
  intro h
  have h0 := (h 5 10 10 10 (le_refl 10)).1 (le_refl 10)
  revert h0
  decide

/-- C1 amended: for every schedule with endTime >= startTime, the vested
amount is 0 when now <= startTime and now < endTime, totalAmount when
now >= endTime, and totalAmount * (now - startTime) / (endTime - startTime)
with truncating integer division when startTime < now < endTime; the
fully-vested branch takes precedence at now = startTime = endTime. -/
theorem vested_piecewise_amended (total st en now : Nat) (_h : st ≤ en) :
    (now ≤ st → now < en → vestedAmount total st en now = 0) ∧
    (en ≤ now → vestedAmount total st en now = total) ∧
    (st < now → now < en →
      vestedAmount total st en now = total * (now - st) / (en - st)) := by
  unfold vestedAmount
  refine ⟨?_, ?_, ?_⟩
  · intro h1 h2
    rw [if_neg (by omega), if_pos h1]
  · intro h1
    rw [if_pos h1]
  · intro h1 h2
    rw [if_neg (by omega), if_neg (by omega)]

/-- C1 witness: the amended theorem applied at the concrete schedule
total = 100, startTime = 0, endTime = 10 and now = 3. -/
theorem vested_piecewise_witness :
    vestedAmount 100 0 10 3 = 100 * (3 - 0) / (10 - 0) :=
  (vested_piecewise_amended 100 0 10 3 (by decide)).2.2 (by decide) (by decide)

/-! ## Claim C2: monotonicity and endpoint values -/

/-- C2 counterexample.  The claim states vestedAmount(startTime) = 0 for
every schedule with endTime >= startTime; at totalAmount = 5,
startTime = endTime = 10 the code returns 5 at now = startTime. -/
theorem vested_monotone_counterexample :
    ¬ ∀ (total st en : Nat), st ≤ en →
        ((∀ n1 n2, n1 ≤ n2 →
            vestedAmount total st en n1 ≤ vestedAmount total st en n2) ∧
         vestedAmount total st en st = 0 ∧
         vestedAmount total st en en = total) := by
  intro h
  have h0 := (h 5 10 10 (le_refl 10)).2.1
  revert h0
  decide

/-- C2 amended: for every schedule with endTime >= startTime the vested
amount is monotonically non-decreasing in now and vested(endTime) =
totalAmount; vested(startTime) = 0 holds whenever startTime < endTime
(at startTime = endTime the schedule is already fully vested). -/
theorem vested_monotone_amended (total st en : Nat) (h : st ≤ en) :
    (∀ n1 n2, n1 ≤ n2 →
       vestedAmount total st en n1 ≤ vestedAmount total st en n2) ∧
    vestedAmount total st en en = total ∧
    (st < en → vestedAmount total st en st = 0) := by
  have key : ∀ m, st < m → m < en → total * (m - st) / (en - st) ≤ total := by
    intro m hm1 hm2
    calc total * (m - st) / (en - st)
        ≤ total * (en - st) / (en - st) :=
          Nat.div_le_div_right (Nat.mul_le_mul (Nat.le_refl total) (by omega))
      _ = total := Nat.mul_div_cancel total (by omega)
  refine ⟨?_, ?_, ?_⟩
  · intro n1 n2 h12
    unfold vestedAmount
    by_cases c1 : n1 ≥ en
    · rw [if_pos c1, if_pos (le_trans c1 h12)]
    · rw [if_neg c1]
      by_cases c2 : n1 ≤ st
      · rw [if_pos c2]
        exact Nat.zero_le _
      · rw [if_neg c2]
        by_cases c3 : n2 ≥ en
        · rw [if_pos c3]
          exact key n1 (by omega) (by omega)
        · rw [if_neg c3, if_neg (show ¬ n2 ≤ st by omega)]
          exact Nat.div_le_div_right (Nat.mul_le_mul (Nat.le_refl total) (by omega))
  · unfold vestedAmount
    rw [if_pos (le_refl en)]
  · intro hlt
    unfold vestedAmount
    rw [if_neg (by omega), if_pos (le_refl st)]

/-- C2 witness: the amended theorem applied at total = 100,
startTime = 0, endTime = 10, with monotonicity instantiated at
now = 3 and now = 7. -/
theorem vested_monotone_witness :
    vestedAmount 100 0 10 3 ≤ vestedAmount 100 0 10 7 ∧
    vestedAmount 100 0 10 10 = 100 ∧
    vestedAmount 100 0 10 0 = 0 := by
  have h := vested_monotone_amended 100 0 10 (by decide)
  exact ⟨h.1 3 7 (by decide), h.2.1, h.2.2 (by decide)⟩

/-! ## Claim C4: zero-duration schedules -/

/-- C4: for a zero-duration schedule (endTime = startTime) the vested
amount equals totalAmount for every now >= startTime and 0 otherwise;
the result is never produced by the division branch, whose guard
startTime < now < endTime is unsatisfiable at endTime = startTime, so
no division by zero is performed. -/
theorem zero_duration_fully_vested (total st now : Nat) :
    vestedAmount total st st now = if st ≤ now then total else 0 := by
  unfold vestedAmount
  split_ifs <;> first | rfl | omega

/-! ## Claim C3: releasable amount and clamping -/

/-- C3 counterexample.  The claim states that the releasable amount
produced by the engine equals vestedAmount - releasedAmount and is never
negative, clamped to 0 when releasedAmount > vestedAmount.  At the
variant-2 schedule totalAmount = 10, releasedAmount = 10, startTime = 0,
duration = 100 and now = 50, vestedAmount = 10 * 50 / 100 = 5 and the
code returns releasable = 5 - 10 = -5: negative and unclamped. -/
theorem releasable_clamp_counterexample :
    ¬ ∀ (s : Schedule2) (now : Nat),
        ((vestingRaw2 s now).releasableAmount =
          max ((vestedAmount s.totalAmount s.startTime
            (s.startTime + s.duration) now : Int) - (s.releasedAmount : Int)) 0 ∧
         0 ≤ (vestingRaw2 s now).releasableAmount) := by
  intro h
  have h0 := (h ⟨10, 10, 0, 100⟩ 50).2
  revert h0
  decide

/-- C3 amended: variant 2 of the engine returns
releasable = vestedAmount - releasedAmount as a signed integer with no
clamping, so it is negative exactly when releasedAmount exceeds
vestedAmount; variant 1 does not recompute releasable at all and returns
the contract-supplied schedule field unchanged. -/
theorem releasable_unclamped_amended (s : Schedule2) (now : Nat)
    (s1 : Schedule1) (now1 : Nat) :
    (vestingRaw2 s now).releasableAmount =
      (vestedAmount s.totalAmount s.startTime (s.startTime + s.duration) now : Int) -
        (s.releasedAmount : Int) ∧
    ((vestingRaw2 s now).releasableAmount < 0 ↔
      vestedAmount s.totalAmount s.startTime (s.startTime + s.duration) now <
        s.releasedAmount) ∧
    (vestingRaw1 s1 now1).releasableAmount = (s1.releasableAmount : Int) := by
  refine ⟨rfl, ?_, rfl⟩
  show releasableAmount2 s now < 0 ↔ _
  unfold releasableAmount2
  omega

/-! ## Claim C5: decimal placement round-trips -/

/-- Big-endian base-10 digit list of a non-negative integer, the
embedding of amount.toString() (vesting.js line 138): no leading zeros
and the single digit 0 for zero. -/
def digitString (a : Nat) : List Nat :=
  if a = 0 then [0] else (Nat.digits 10 a).reverse

/-- Decimal placement step of formatAmount (vesting.js lines 140-151):
the digit string is split fractionalDigits from the right; when it is
too short the fractional part is left-padded with zeros and the integer
part is the single digit 0.  Returns (integer-part digits,
fractional-part digits), both big-endian. -/
def decode (a fractionalDigits : Nat) : List Nat × List Nat :=
  let s := digitString a
  if s.length ≤ fractionalDigits then
    ([0], List.replicate (fractionalDigits - s.length) 0 ++ s)
  else
    (s.take (s.length - fractionalDigits), s.drop (s.length - fractionalDigits))

/-- Modelled from the spec: the re-encoding back to base units, the
reverse of the decimal placement, which is not present in src: the digit
sequence obtained by erasing the decimal point is read back as a base-10
integer. -/
def encode (p : List Nat × List Nat) : Nat :=
  Nat.ofDigits 10 (p.1 ++ p.2).reverse

/-- Reading the digit string back in base 10 recovers the number. -/
theorem ofDigits_digitString (a : Nat) :
    Nat.ofDigits 10 (digitString a).reverse = a := by
  unfold digitString
  by_cases h : a = 0
  · subst h
    rfl
  · rw [if_neg h, List.reverse_reverse, Nat.ofDigits_digits]

/-- A run of zero digits contributes nothing. -/
theorem ofDigits_replicate_zero (k : Nat) :
    Nat.ofDigits 10 (List.replicate k 0) = 0 := by
  induction k with
  | zero => rfl
  | succ n ih => simp [List.replicate_succ, Nat.ofDigits_cons, ih]

/-- C5: for every non-negative integer amount and every non-negative
fractional-digit count, placing the decimal point fractionalDigits from
the right of the base-10 digit string and then re-encoding the digits
back to base units recovers the original integer exactly.  The whole
computation is on integers and digit lists; no floating-point value is
involved. -/
theorem decode_encode_roundtrip (a fractionalDigits : Nat) :
    encode (decode a fractionalDigits) = a := by
  unfold encode decode
  by_cases h : (digitString a).length ≤ fractionalDigits
  · rw [if_pos h]
    show Nat.ofDigits 10
      (([0] ++ (List.replicate (fractionalDigits - (digitString a).length) 0 ++
        digitString a)).reverse) = a
    rw [List.reverse_append, List.reverse_append, List.reverse_replicate,
      List.append_assoc, Nat.ofDigits_append, Nat.ofDigits_append,
      ofDigits_replicate_zero, ofDigits_digitString]
    simp [Nat.ofDigits]
  · rw [if_neg h]
    show Nat.ofDigits 10
      (((digitString a).take ((digitString a).length - fractionalDigits) ++
        (digitString a).drop ((digitString a).length - fractionalDigits)).reverse) = a
    rw [List.take_append_drop, ofDigits_digitString]

/-! ## Claim C7: zero-total schedules are treated as absent -/

/-- C7: whenever the fetched schedule has totalAmount = 0, both variants
of getVestingInfo return the schedule-not-found failure and never a
successful payload. -/
theorem zero_total_schedule_not_found (s1 : Schedule1) (s2 : Schedule2)
    (now : Nat) (h1 : s1.totalAmount = 0) (h2 : s2.totalAmount = 0) :
    getVestingInfoCore1 s1 now = QueryResult.scheduleNotFound ∧
    getVestingInfoCore2 s2 now = QueryResult.scheduleNotFound ∧
    (∀ r, getVestingInfoCore1 s1 now ≠ QueryResult.ok r) ∧
    (∀ r, getVestingInfoCore2 s2 now ≠ QueryResult.ok r) := by
  unfold getVestingInfoCore1 getVestingInfoCore2
  rw [if_pos h1, if_pos h2]
  exact ⟨rfl, rfl, fun r => by simp, fun r => by simp⟩

/-- C7 witness: the all-zero fetched schedules at now = 7. -/
theorem zero_total_schedule_not_found_witness :
    getVestingInfoCore1 ⟨0, 0, 0, 0, 0⟩ 7 = QueryResult.scheduleNotFound ∧
    getVestingInfoCore2 ⟨0, 0, 0, 0⟩ 7 = QueryResult.scheduleNotFound :=
  ⟨(zero_total_schedule_not_found ⟨0, 0, 0, 0, 0⟩ ⟨0, 0, 0, 0⟩ 7 rfl rfl).1,
   (zero_total_schedule_not_found ⟨0, 0, 0, 0, 0⟩ ⟨0, 0, 0, 0⟩ 7 rfl rfl).2.1⟩

/-! ## Claim C8: nothing to claim means no transaction -/

/-- C8: for every claim attempt on an existing schedule
(totalAmount different from 0) whose computed releasable amount is at
most 0, both variants of claimVestedTokens return the nothing-to-claim
failure, and the release-submission step is unreachable: the outcome is
never submitRelease. -/
theorem nothing_to_claim_no_submit (s1 : Schedule1) (s2 : Schedule2)
    (now : Nat) (h1 : s1.totalAmount ≠ 0) (h2 : s2.totalAmount ≠ 0)
    (hr1 : (s1.releasableAmount : Int) ≤ 0)
    (hr2 : releasableAmount2 s2 now ≤ 0) :
    claimVestedTokensCore1 s1 = ClaimOutcome.nothingToClaim ∧
    claimVestedTokensCore2 s2 now = ClaimOutcome.nothingToClaim ∧
    (∀ amt, claimVestedTokensCore1 s1 ≠ ClaimOutcome.submitRelease amt) ∧
    (∀ amt, claimVestedTokensCore2 s2 now ≠ ClaimOutcome.submitRelease amt) := by
  unfold claimVestedTokensCore1 claimVestedTokensCore2
  rw [if_neg h1, if_neg h2, if_pos hr1, if_pos hr2]
  exact ⟨rfl, rfl, fun amt => by simp, fun amt => by simp⟩

/-- C8 witness: variant 1 with contract-supplied releasable 0, variant 2
with releasedAmount 5 ahead of vestedAmount 0 at now = 0, both on
existing schedules with totalAmount = 5. -/
theorem nothing_to_claim_no_submit_witness :
    claimVestedTokensCore1 ⟨5, 5, 0, 0, 100⟩ = ClaimOutcome.nothingToClaim ∧
    claimVestedTokensCore2 ⟨5, 5, 0, 100⟩ 0 = ClaimOutcome.nothingToClaim :=
  ⟨(nothing_to_claim_no_submit ⟨5, 5, 0, 0, 100⟩ ⟨5, 5, 0, 100⟩ 0
      (by decide) (by decide) (by decide) (by decide)).1,
   (nothing_to_claim_no_submit ⟨5, 5, 0, 0, 100⟩ ⟨5, 5, 0, 100⟩ 0
      (by decide) (by decide) (by decide) (by decide)).2.1⟩

/-! ## Claims C9 and C10: batch aggregation in getAllVestingInfo -/

/-- Result of getAllVestingInfo: the invalid-input failure, or success
with the surviving schedules and their count. -/
inductive BatchResult (β : Type) where
  | invalidInput : BatchResult β
  | ok : List β → Nat → BatchResult β
deriving DecidableEq

/-- The loop of getAllVestingInfo (vesting.js lines 424-430 and
779-785): each address is looked up in order and only successful
results are pushed. -/
def collectResults {α β : Type} (lookup : α → Option β) : List α → List β
  | [] => []
  | a :: rest =>
      match lookup a with
      | some r => r :: collectResults lookup rest
      | none => collectResults lookup rest

/-- getAllVestingInfo (vesting.js lines 413-438 and 771-793).  The
token-address argument is a dynamic value that is either not an array
(embedded as none) or an array (embedded as some list); a non-array or
empty array fails as invalid input, otherwise each address is queried
sequentially through the lookup (the per-address getVestingInfo outcome,
some on success and none on failure) and the survivors are returned with
their count. -/
def getAllVestingInfo {α β : Type} (lookup : α → Option β)
    (tokenAddresses : Option (List α)) : BatchResult β :=
  match tokenAddresses with
  | none => BatchResult.invalidInput
  | some addrs =>
      if addrs.length = 0 then BatchResult.invalidInput
      else
        let results := collectResults lookup addrs
        BatchResult.ok results results.length

/-- The collection loop keeps exactly the successful lookups in input
order. -/
theorem collectResults_eq_filterMap {α β : Type} (lookup : α → Option β)
    (l : List α) : collectResults lookup l = l.filterMap lookup := by
  induction l with
  | nil => rfl
  | cons a rest ih =>
      unfold collectResults
      rw [List.filterMap_cons]
      cases lookup a with
      | none => exact ih
      | some r => rw [ih]

/-- C9: getAllVestingInfo fails with invalid input on a non-array
argument and on an empty array; on a non-empty array it returns success
with exactly the schedules of the addresses whose individual query
succeeded, in input order, together with their count, regardless of how
many individual queries failed. -/
theorem get_all_vesting_info_batch {α β : Type} (lookup : α → Option β)
    (l : List α) (h : l ≠ []) :
    getAllVestingInfo lookup none = BatchResult.invalidInput ∧
    getAllVestingInfo lookup (some ([] : List α)) = BatchResult.invalidInput ∧
    getAllVestingInfo lookup (some l) =
      BatchResult.ok (l.filterMap lookup) (l.filterMap lookup).length := by
  refine ⟨rfl, rfl, ?_⟩
  have hne : ¬ l.length = 0 := by simpa using h
  simp only [getAllVestingInfo, if_neg hne, collectResults_eq_filterMap]

/-- C9 witness: the list [1, 2, 3] under a lookup that succeeds exactly
on even addresses, mapping them to ten times their value: the batch
keeps [20] and counts 1. -/
theorem get_all_vesting_info_batch_witness :
    getAllVestingInfo (fun n : Nat => if n % 2 = 0 then some (n * 10) else none)
      (some [1, 2, 3]) = BatchResult.ok [20] 1 := by
  rw [(get_all_vesting_info_batch
    (fun n : Nat => if n % 2 = 0 then some (n * 10) else none)
    [1, 2, 3] (by decide)).2.2]
  rfl

/-- C10: on a non-empty address list whose every individual query fails,
getAllVestingInfo still returns success, with an empty schedule list and
a count of 0. -/
theorem get_all_vesting_info_all_fail {α β : Type} (lookup : α → Option β)
    (l : List α) (h : l ≠ []) (hfail : ∀ a, a ∈ l → lookup a = none) :
    getAllVestingInfo lookup (some l) = BatchResult.ok ([] : List β) 0 := by
  have hempty : l.filterMap lookup = [] := by
    rw [List.filterMap_eq_nil_iff]
    exact hfail
  have h3 := (get_all_vesting_info_batch lookup l h).2.2
  rw [h3, hempty]
  rfl

/-- C10 witness: the list [1, 2] under the lookup that always fails. -/
theorem get_all_vesting_info_all_fail_witness :
    getAllVestingInfo (fun _ : Nat => (none : Option Nat)) (some [1, 2]) =
      BatchResult.ok ([] : List Nat) 0 :=
  get_all_vesting_info_all_fail (fun _ : Nat => (none : Option Nat)) [1, 2]
    (by decide) (fun a _ => rfl)
